import Mathlib

/-!
Shallow embedding of the nutrition-calculation service of the Ingrelens
repository (`backend/app/services/nutrition_service.py` and the stateless
endpoint of `backend/app/api/routes_nutrition.py`).

Python floats are modelled by rationals (`ℚ`), Python `round(x, 1)` by
round-half-to-even at one decimal place, SQLAlchemy `Session` by a record
counting commits and refreshes, and the `User` ORM row by a structure of
optional fields mirroring the columns of `app.db.models.User` that the
service reads or writes.
-/

namespace Ingrelens

/-- Round-half-to-even to the nearest integer on rationals, the behaviour of
Python's builtin `round` at exact ties. -/
def pyRoundInt (q : ℚ) : ℤ :=
  let f : ℤ := ⌊q⌋
  let frac : ℚ := q - f
  if frac < 1/2 then f
  else if 1/2 < frac then f + 1
  else if f % 2 = 0 then f else f + 1

/-- Python `round(x, 1)`: round to one decimal place, ties to even. -/
def pyRound1 (q : ℚ) : ℚ := (pyRoundInt (q * 10) : ℚ) / 10

/-- Python `str.lower()`: lower-case each character (the repository only ever
compares the result against the ASCII strings "male" and "female"). -/
def pyLower (s : String) : String := ⟨s.data.map Char.toLower⟩

/-- The class attribute `NutritionCalculatorService.ACTIVITY_MULTIPLIERS`,
a fixed dictionary from activity level to TDEE multiplier. -/
def ACTIVITY_MULTIPLIERS : List (String × ℚ) :=
  [("sedentary", 1.2),
   ("light", 1.375),
   ("moderate", 1.55),
   ("active", 1.725),
   ("very_active", 1.9)]

/-- Python `dict.get(key, default)` on an association-list model of a dict:
the value at the first matching key, the default when no key matches. -/
def dictGet : List (String × ℚ) → String → ℚ → ℚ
  | [], _, dflt => dflt
  | p :: rest, key, dflt => if p.1 = key then p.2 else dictGet rest key dflt

/-- `NutritionCalculatorService.calculate_bmr`: Mifflin-St Jeor equation with
a case-insensitive two-way gender split. -/
def calculate_bmr (weight_kg height_cm : ℚ) (age : ℤ) (gender : String) : ℚ :=
  let base_bmr := 10 * weight_kg + 6.25 * height_cm - 5 * (age : ℚ)
  if pyLower gender = "male" then base_bmr + 5
  else base_bmr - 161

/-- `NutritionCalculatorService.calculate_tdee`: BMR times the multiplier
looked up in `ACTIVITY_MULTIPLIERS`, defaulting to `1.55`. -/
def calculate_tdee (bmr : ℚ) (activity_level : String) : ℚ :=
  bmr * dictGet ACTIVITY_MULTIPLIERS activity_level 1.55

/-- `NutritionCalculatorService.calculate_target_calories`: TDEE adjusted by a
clamped surplus (bulk) or deficit (cut); `target_weight` is accepted but not
read by the body. -/
def calculate_target_calories (tdee : ℚ) (goal : String)
    (current_weight : ℚ) (target_weight : ℚ) : ℚ :=
  if goal = "bulk" then tdee + min 500 (max 300 (current_weight * 5))
  else if goal = "cut" then tdee - min 500 (max 300 (current_weight * 5))
  else tdee

/-- The dictionary returned by `calculate_macros`. -/
structure Macros where
  protein_g : ℚ
  carbs_g : ℚ
  fats_g : ℚ
deriving DecidableEq, Repr

/-- `NutritionCalculatorService.calculate_macros`: goal-dependent ratio triple,
4/4/9 kcal-per-gram conversion, each component rounded to one decimal. -/
def calculate_macros (target_calories : ℚ) (goal : String) : Macros :=
  let ratios : ℚ × ℚ × ℚ :=
    if goal = "bulk" then (0.30, 0.40, 0.30)
    else if goal = "cut" then (0.35, 0.30, 0.35)
    else (0.25, 0.45, 0.30)
  { protein_g := pyRound1 (target_calories * ratios.1 / 4)
    carbs_g := pyRound1 (target_calories * ratios.2.1 / 4)
    fats_g := pyRound1 (target_calories * ratios.2.2 / 9) }

/-- The SQLAlchemy `Session` as seen by the service: the only operations the
service performs on it are `commit()` and `refresh(user)`, counted here. -/
structure DbSession where
  commits : ℕ
  refreshes : ℕ
deriving DecidableEq, Repr

/-- `db.commit()`. -/
def DbSession.commit (db : DbSession) : DbSession :=
  { db with commits := db.commits + 1 }

/-- `db.refresh(user)`. -/
def DbSession.refresh (db : DbSession) : DbSession :=
  { db with refreshes := db.refreshes + 1 }

/-- The columns of the `User` ORM row (`app.db.models.User`) that the
nutrition service reads or writes, plus identity fields. Nullable columns are
`Option`s. -/
structure User where
  id : ℤ
  email : String
  gender : Option String
  age : Option ℤ
  height_cm : Option ℚ
  current_weight_kg : Option ℚ
  target_weight_kg : Option ℚ
  goal : Option String
  activity_level : Option String
  bmr : Option ℚ
  tdee : Option ℚ
  target_calories : Option ℚ
  target_protein_g : Option ℚ
  target_carbs_g : Option ℚ
  target_fats_g : Option ℚ
deriving DecidableEq, Repr

/-- Python truthiness of an optional float column: `None` and `0.0` are falsy. -/
def truthyQ : Option ℚ → Bool
  | none => false
  | some x => x != 0

/-- Python truthiness of an optional int column: `None` and `0` are falsy. -/
def truthyZ : Option ℤ → Bool
  | none => false
  | some x => x != 0

/-- Python truthiness of an optional string column: `None` and `""` are falsy. -/
def truthyS : Option String → Bool
  | none => false
  | some s => s != ""

/-- Python `a or b` for an optional string `a`: `b` when `a` is falsy. -/
def orElseS (o : Option String) (d : String) : String :=
  match o with
  | none => d
  | some s => if s = "" then d else s

/-- Python `a or b` for an optional float `a`: `b` when `a` is falsy. -/
def orElseQ (o : Option ℚ) (d : ℚ) : ℚ :=
  match o with
  | none => d
  | some x => if x = 0 then d else x

/-- `NutritionCalculatorService.update_user_nutrition_profile`: guard on the
four required columns, the four-stage pipeline, assignment of the six derived
columns, then `db.commit()` and `db.refresh(user)`. -/
def update_user_nutrition_profile (db : DbSession) (user : User) :
    DbSession × User :=
  if !(truthyQ user.current_weight_kg && truthyQ user.height_cm &&
       truthyZ user.age && truthyS user.gender) then
    (db, user)
  else
    let bmr := calculate_bmr (user.current_weight_kg.getD 0)
      (user.height_cm.getD 0) (user.age.getD 0) (user.gender.getD "")
    let tdee := calculate_tdee bmr (orElseS user.activity_level "moderate")
    let target_calories := calculate_target_calories tdee
      (orElseS user.goal "maintain") (user.current_weight_kg.getD 0)
      (orElseQ user.target_weight_kg (user.current_weight_kg.getD 0))
    let macros := calculate_macros target_calories (orElseS user.goal "maintain")
    let user' := { user with
      bmr := some (pyRound1 bmr)
      tdee := some (pyRound1 tdee)
      target_calories := some (pyRound1 target_calories)
      target_protein_g := some macros.protein_g
      target_carbs_g := some macros.carbs_g
      target_fats_g := some macros.fats_g }
    (db.commit.refresh, user')

/-- A raised `HTTPException`, carrying its status code. -/
structure HTTPError where
  status_code : ℕ
deriving DecidableEq, Repr

/-- The `results` object returned by the `POST /calculate` handler. -/
structure CalcResults where
  bmr : ℚ
  tdee : ℚ
  target_calories : ℚ
  target_macros : Macros
deriving DecidableEq, Repr

/-- The `POST /calculate` handler `calculate_nutrition_stats` of
`routes_nutrition.py`: validates gender (case-insensitively) and
activity_level (case-sensitively, against the dict keys), then runs the
four-function pipeline and returns the rounded results; it takes no database
session. -/
def calculate_nutrition_stats (weight_kg height_cm : ℚ) (age : ℤ)
    (gender activity_level goal : String) : Except HTTPError CalcResults :=
  if pyLower gender ∉ (["male", "female"] : List String) then
    .error ⟨400⟩
  else if activity_level ∉ ACTIVITY_MULTIPLIERS.map Prod.fst then
    .error ⟨400⟩
  else
    let bmr := calculate_bmr weight_kg height_cm age gender
    let tdee := calculate_tdee bmr activity_level
    let target_calories :=
      calculate_target_calories tdee goal weight_kg weight_kg
    let macros := calculate_macros target_calories goal
    .ok { bmr := pyRound1 bmr
          tdee := pyRound1 tdee
          target_calories := pyRound1 target_calories
          target_macros := macros }

/-! Evaluation helpers shared by several theorems. -/

lemma pyLower_male_eq : pyLower "male" = "male" := by decide

lemma bmr_male_70_175_25 : calculate_bmr 70 175 25 "male" = 1673.75 := by
  rw [calculate_bmr, if_pos pyLower_male_eq]
  norm_num

lemma tdee_moderate_1673_75 : calculate_tdee 1673.75 "moderate" = 2594.3125 := by
  rw [calculate_tdee, ACTIVITY_MULTIPLIERS]
  simp [dictGet]
  norm_num

lemma target_calories_maintain (t cw tw : ℚ) :
    calculate_target_calories t "maintain" cw tw = t := by
  rw [calculate_target_calories, if_neg (by decide : ¬("maintain" : String) = "bulk"),
    if_neg (by decide : ¬("maintain" : String) = "cut")]

lemma pyRound1_1673_75 : pyRound1 1673.75 = 1673.8 := by
  norm_num [pyRound1, pyRoundInt]

lemma pyRound1_2594_3125 : pyRound1 2594.3125 = 2594.3 := by
  norm_num [pyRound1, pyRoundInt]

lemma macros_maintain_2594_3125 :
    calculate_macros 2594.3125 "maintain" = ⟨162.1, 291.9, 86.5⟩ := by
  rw [calculate_macros]
  rw [if_neg (by decide : ¬("maintain" : String) = "bulk"),
    if_neg (by decide : ¬("maintain" : String) = "cut")]
  norm_num [pyRound1, pyRoundInt, Macros.mk.injEq]

/-- C1: on weight 70 kg, height 175 cm, age 25, gender "male", activity
"moderate", goal "maintain", the four-function pipeline yields BMR 1673.75
(rounded 1673.8), TDEE 2594.3125 (rounded 2594.3), target calories equal to
the TDEE (rounded 2594.3), and macros 162.1 / 291.9 / 86.5 grams, with TDEE
and the macros computed from the unrounded upstream values. -/
theorem c1_end_to_end_pipeline :
    calculate_bmr 70 175 25 "male" = 1673.75 ∧
    pyRound1 (calculate_bmr 70 175 25 "male") = 1673.8 ∧
    calculate_tdee (calculate_bmr 70 175 25 "male") "moderate" = 2594.3125 ∧
    pyRound1 (calculate_tdee (calculate_bmr 70 175 25 "male") "moderate") = 2594.3 ∧
    calculate_target_calories
      (calculate_tdee (calculate_bmr 70 175 25 "male") "moderate") "maintain" 70 70 =
      calculate_tdee (calculate_bmr 70 175 25 "male") "moderate" ∧
    pyRound1 (calculate_target_calories
      (calculate_tdee (calculate_bmr 70 175 25 "male") "moderate") "maintain" 70 70) = 2594.3 ∧
    calculate_macros (calculate_target_calories
      (calculate_tdee (calculate_bmr 70 175 25 "male") "moderate") "maintain" 70 70)
      "maintain" = ⟨162.1, 291.9, 86.5⟩ := by
  rw [bmr_male_70_175_25, tdee_moderate_1673_75, target_calories_maintain]
  exact ⟨rfl, pyRound1_1673_75, rfl, pyRound1_2594_3125, rfl, pyRound1_2594_3125,
    macros_maintain_2594_3125⟩

/-- C9: the `target_weight` argument of `calculate_target_calories` is dead:
any two values of it give the same result. -/
theorem c9_target_weight_has_no_effect :
    ∀ (tdee cw x y : ℚ) (g : String),
      calculate_target_calories tdee g cw x = calculate_target_calories tdee g cw y := by
  intro tdee cw x y g
  rfl

/-- C10: targets are not bounded below by zero: with TDEE 100, goal "cut" and
current weight 60 (all positive) the target calories are -200, and
`calculate_macros` on -200 returns negative gram values for all three
macros. -/
theorem c10_negative_calories_and_macros :
    (0 : ℚ) < 100 ∧ (0 : ℚ) < 60 ∧
    calculate_target_calories 100 "cut" 60 60 = -200 ∧
    calculate_target_calories 100 "cut" 60 60 < 0 ∧
    (calculate_macros (-200) "cut").protein_g = -17.5 ∧
    (calculate_macros (-200) "cut").protein_g < 0 ∧
    (calculate_macros (-200) "cut").carbs_g = -15 ∧
    (calculate_macros (-200) "cut").carbs_g < 0 ∧
    (calculate_macros (-200) "cut").fats_g = -7.8 ∧
    (calculate_macros (-200) "cut").fats_g < 0 := by
  have htc : calculate_target_calories 100 "cut" 60 60 = -200 := by
    rw [calculate_target_calories, if_neg (by decide : ¬("cut" : String) = "bulk"),
      if_pos (rfl : ("cut" : String) = "cut")]
    norm_num
  have hm : calculate_macros (-200) "cut" = ⟨-17.5, -15, -7.8⟩ := by
    rw [calculate_macros, if_neg (by decide : ¬("cut" : String) = "bulk"),
      if_pos (rfl : ("cut" : String) = "cut")]
    norm_num [pyRound1, pyRoundInt, Macros.mk.injEq]
  refine ⟨by norm_num, by norm_num, htc, ?_, ?_, ?_, ?_, ?_, ?_, ?_⟩ <;>
    simp only [htc, hm] <;> norm_num

/-- C3: for positive weight, height and age, `calculate_bmr` is the
Mifflin-St Jeor base plus 5 when the lower-cased gender is "male" and minus
161 for every other gender string, so the male/female difference is exactly
166. -/
theorem c3_bmr_formula_and_gender_gap :
    ∀ (w h : ℚ) (a : ℤ), 0 < w → 0 < h → 0 < a →
      (∀ g : String, calculate_bmr w h a g =
        10 * w + 6.25 * h - 5 * (a : ℚ) + (if pyLower g = "male" then 5 else -161)) ∧
      calculate_bmr w h a "male" - calculate_bmr w h a "female" = 166 := by
  intro w h a _ _ _
  constructor
  · intro g
    rw [calculate_bmr]
    split <;> ring
  · rw [calculate_bmr, calculate_bmr, if_pos pyLower_male_eq,
      if_neg (by decide : ¬pyLower "female" = "male")]
    ring

/-- Witness for C3 at weight 70, height 175, age 25. -/
theorem c3_bmr_formula_and_gender_gap_witness :
    (0 : ℚ) < 70 ∧ (0 : ℚ) < 175 ∧ (0 : ℤ) < 25 ∧
    calculate_bmr 70 175 25 "male" - calculate_bmr 70 175 25 "female" = 166 :=
  ⟨by norm_num, by norm_num, by decide,
    (c3_bmr_formula_and_gender_gap 70 175 25 (by norm_num) (by norm_num) (by decide)).2⟩

/-- C4: `calculate_target_calories` adds the clamped surplus
`min 500 (max 300 (current_weight * 5))` for "bulk", subtracts it for "cut",
and returns the TDEE unchanged for every other goal; at current weight 50 the
adjustment is the floor 300 and at 200 it is the ceiling 500. -/
theorem c4_target_calories_clamp :
    ∀ (tdee cw tw : ℚ) (g : String),
      calculate_target_calories tdee "bulk" cw tw = tdee + min 500 (max 300 (cw * 5)) ∧
      calculate_target_calories tdee "cut" cw tw = tdee - min 500 (max 300 (cw * 5)) ∧
      (g ≠ "bulk" → g ≠ "cut" → calculate_target_calories tdee g cw tw = tdee) ∧
      calculate_target_calories tdee "bulk" 50 tw = tdee + 300 ∧
      calculate_target_calories tdee "bulk" 200 tw = tdee + 500 := by
  intro tdee cw tw g
  refine ⟨?_, ?_, ?_, ?_, ?_⟩
  · rw [calculate_target_calories, if_pos rfl]
  · rw [calculate_target_calories, if_neg (by decide : ¬("cut" : String) = "bulk"),
      if_pos rfl]
  · intro h1 h2
    rw [calculate_target_calories, if_neg h1, if_neg h2]
  · rw [calculate_target_calories, if_pos rfl]
    norm_num
  · rw [calculate_target_calories, if_pos rfl]
    norm_num

/-- Witness for C4 with goal "maintain". -/
theorem c4_target_calories_clamp_witness :
    ("maintain" : String) ≠ "bulk" ∧ ("maintain" : String) ≠ "cut" ∧
    calculate_target_calories 2000 "maintain" 70 60 = 2000 :=
  ⟨by decide, by decide,
    (c4_target_calories_clamp 2000 70 60 "maintain").2.2.1 (by decide) (by decide)⟩

/-- C5: `calculate_macros` uses the ratio triples 0.30/0.40/0.30 for "bulk",
0.35/0.30/0.35 for "cut" and 0.25/0.45/0.30 for every other goal, converting
with the 4/4/9 kcal-per-gram constants and rounding each gram value to one
decimal; each ratio triple sums to 1. -/
theorem c5_macros_ratio_table :
    ∀ (c : ℚ) (g : String),
      calculate_macros c "bulk" =
        ⟨pyRound1 (c * 0.30 / 4), pyRound1 (c * 0.40 / 4), pyRound1 (c * 0.30 / 9)⟩ ∧
      calculate_macros c "cut" =
        ⟨pyRound1 (c * 0.35 / 4), pyRound1 (c * 0.30 / 4), pyRound1 (c * 0.35 / 9)⟩ ∧
      (g ≠ "bulk" → g ≠ "cut" → calculate_macros c g =
        ⟨pyRound1 (c * 0.25 / 4), pyRound1 (c * 0.45 / 4), pyRound1 (c * 0.30 / 9)⟩) ∧
      (0.30 + 0.40 + 0.30 : ℚ) = 1 ∧
      (0.35 + 0.30 + 0.35 : ℚ) = 1 ∧
      (0.25 + 0.45 + 0.30 : ℚ) = 1 := by
  intro c g
  refine ⟨?_, ?_, ?_, by norm_num, by norm_num, by norm_num⟩
  · rw [calculate_macros, if_pos rfl]
  · rw [calculate_macros, if_neg (by decide : ¬("cut" : String) = "bulk"), if_pos rfl]
  · intro h1 h2
    rw [calculate_macros, if_neg h1, if_neg h2]

/-- Witness for C5 with goal "maintain" at 1000 kcal. -/
theorem c5_macros_ratio_table_witness :
    ("maintain" : String) ≠ "bulk" ∧ ("maintain" : String) ≠ "cut" ∧
    calculate_macros 1000 "maintain" =
      ⟨pyRound1 (1000 * 0.25 / 4), pyRound1 (1000 * 0.45 / 4), pyRound1 (1000 * 0.30 / 9)⟩ :=
  ⟨by decide, by decide,
    (c5_macros_ratio_table 1000 "maintain").2.2.1 (by decide) (by decide)⟩

/-- C6: `calculate_tdee` multiplies the BMR by the table value for each of the
five known activity levels, silently falls back to 1.55 on every unrecognized
level, and in particular maps BMR 100 at "sedentary" to 120. -/
theorem c6_tdee_table_and_fallback :
    ∀ (b : ℚ) (l : String),
      calculate_tdee b "sedentary" = b * 1.2 ∧
      calculate_tdee b "light" = b * 1.375 ∧
      calculate_tdee b "moderate" = b * 1.55 ∧
      calculate_tdee b "active" = b * 1.725 ∧
      calculate_tdee b "very_active" = b * 1.9 ∧
      ((∀ p ∈ ACTIVITY_MULTIPLIERS, p.1 ≠ l) → calculate_tdee b l = b * 1.55) ∧
      calculate_tdee 100 "sedentary" = 120 := by
  intro b l
  refine ⟨?_, ?_, ?_, ?_, ?_, ?_, ?_⟩
  · simp [calculate_tdee, ACTIVITY_MULTIPLIERS, dictGet]
  · simp [calculate_tdee, ACTIVITY_MULTIPLIERS, dictGet]
  · simp [calculate_tdee, ACTIVITY_MULTIPLIERS, dictGet]
  · simp [calculate_tdee, ACTIVITY_MULTIPLIERS, dictGet]
  · simp [calculate_tdee, ACTIVITY_MULTIPLIERS, dictGet]
  · intro hl
    have h1 := hl ("sedentary", 1.2) (by simp [ACTIVITY_MULTIPLIERS])
    have h2 := hl ("light", 1.375) (by simp [ACTIVITY_MULTIPLIERS])
    have h3 := hl ("moderate", 1.55) (by simp [ACTIVITY_MULTIPLIERS])
    have h4 := hl ("active", 1.725) (by simp [ACTIVITY_MULTIPLIERS])
    have h5 := hl ("very_active", 1.9) (by simp [ACTIVITY_MULTIPLIERS])
    simp only [ne_eq] at h1 h2 h3 h4 h5
    simp [calculate_tdee, ACTIVITY_MULTIPLIERS, dictGet, h1, h2, h3, h4, h5]
  · simp [calculate_tdee, ACTIVITY_MULTIPLIERS, dictGet]
    norm_num

/-- Witness for C6 at the unrecognized level "extreme". -/
theorem c6_tdee_table_and_fallback_witness :
    (∀ p ∈ ACTIVITY_MULTIPLIERS, p.1 ≠ "extreme") ∧
    calculate_tdee 100 "extreme" = 100 * 1.55 :=
  ⟨by decide, (c6_tdee_table_and_fallback 100 "extreme").2.2.2.2.2.1 (by decide)⟩

/-- A complete user record: all four required columns present and truthy. -/
def completeUser : User :=
  { id := 1
    email := "user@example.com"
    gender := some "male"
    age := some 25
    height_cm := some 175
    current_weight_kg := some 70
    target_weight_kg := none
    goal := none
    activity_level := none
    bmr := none
    tdee := none
    target_calories := none
    target_protein_g := none
    target_carbs_g := none
    target_fats_g := none }

/-- C2 counterexample: on a complete user record the profile update commits
and refreshes the database session itself, so it is not free of persistence
effects. -/
theorem c2_counterexample_commits_session :
    (update_user_nutrition_profile ⟨0, 0⟩ completeUser).1 ≠ (⟨0, 0⟩ : DbSession) := by
  have hstep : (update_user_nutrition_profile ⟨0, 0⟩ completeUser).1 =
      (⟨1, 1⟩ : DbSession) := rfl
  rw [hstep]
  decide

/-- C2 amended: the profile update is a deterministic computation that never
touches any user field other than the six derived outputs, but it performs
persistence itself: the session is returned either untouched (guard branch)
or with exactly one commit and one refresh applied. -/
theorem c2_deterministic_with_own_persistence :
    ∀ (db : DbSession) (u : User),
      ((update_user_nutrition_profile db u).2.id = u.id ∧
       (update_user_nutrition_profile db u).2.email = u.email ∧
       (update_user_nutrition_profile db u).2.gender = u.gender ∧
       (update_user_nutrition_profile db u).2.age = u.age ∧
       (update_user_nutrition_profile db u).2.height_cm = u.height_cm ∧
       (update_user_nutrition_profile db u).2.current_weight_kg = u.current_weight_kg ∧
       (update_user_nutrition_profile db u).2.target_weight_kg = u.target_weight_kg ∧
       (update_user_nutrition_profile db u).2.goal = u.goal ∧
       (update_user_nutrition_profile db u).2.activity_level = u.activity_level) ∧
      ((update_user_nutrition_profile db u).1 = db ∨
       (update_user_nutrition_profile db u).1 = db.commit.refresh) := by
  intro db u
  rw [update_user_nutrition_profile]
  split
  · exact ⟨⟨rfl, rfl, rfl, rfl, rfl, rfl, rfl, rfl, rfl⟩, Or.inl rfl⟩
  · exact ⟨⟨rfl, rfl, rfl, rfl, rfl, rfl, rfl, rfl, rfl⟩, Or.inr rfl⟩

/-- A user record with the age column absent. -/
def userMissingAge : User :=
  { id := 2
    email := "noage@example.com"
    gender := some "female"
    age := none
    height_cm := some 160
    current_weight_kg := some 55
    target_weight_kg := some 50
    goal := some "cut"
    activity_level := some "light"
    bmr := none
    tdee := none
    target_calories := none
    target_protein_g := none
    target_carbs_g := none
    target_fats_g := none }

/-- C7: when any of the four required columns is absent or falsy, the profile
update returns the session and the user unchanged. -/
theorem c7_guard_returns_input_unchanged :
    ∀ (db : DbSession) (u : User),
      (truthyQ u.current_weight_kg && truthyQ u.height_cm &&
        truthyZ u.age && truthyS u.gender) = false →
      update_user_nutrition_profile db u = (db, u) := by
  intro db u hguard
  rw [update_user_nutrition_profile, hguard]
  rfl

/-- Witness for C7 on a user whose age is absent. -/
theorem c7_guard_returns_input_unchanged_witness :
    (truthyQ userMissingAge.current_weight_kg && truthyQ userMissingAge.height_cm &&
      truthyZ userMissingAge.age && truthyS userMissingAge.gender) = false ∧
    update_user_nutrition_profile ⟨0, 0⟩ userMissingAge = (⟨0, 0⟩, userMissingAge) :=
  ⟨by decide, c7_guard_returns_input_unchanged ⟨0, 0⟩ userMissingAge (by decide)⟩

/-- C8: the stateless `POST /calculate` handler raises HTTP 400 exactly when
the lower-cased gender is outside {male, female} or the activity level is not
a key of the multiplier table; otherwise it returns the rounded results of the
four-function pipeline (its type shows it takes no database session, so it
persists nothing). -/
theorem c8_calculate_endpoint_validation :
    ∀ (w h : ℚ) (a : ℤ) (g al gl : String),
      ((∃ e, calculate_nutrition_stats w h a g al gl = Except.error e ∧
          e.status_code = 400) ↔
        (pyLower g ∉ (["male", "female"] : List String) ∨
         al ∉ ACTIVITY_MULTIPLIERS.map Prod.fst)) ∧
      (pyLower g ∈ (["male", "female"] : List String) →
       al ∈ ACTIVITY_MULTIPLIERS.map Prod.fst →
       calculate_nutrition_stats w h a g al gl = Except.ok
        { bmr := pyRound1 (calculate_bmr w h a g)
          tdee := pyRound1 (calculate_tdee (calculate_bmr w h a g) al)
          target_calories := pyRound1 (calculate_target_calories
            (calculate_tdee (calculate_bmr w h a g) al) gl w w)
          target_macros := calculate_macros (calculate_target_calories
            (calculate_tdee (calculate_bmr w h a g) al) gl w w) gl }) := by
  intro w h a g al gl
  rw [calculate_nutrition_stats]
  by_cases h1 : pyLower g ∈ (["male", "female"] : List String)
  · by_cases h2 : al ∈ ACTIVITY_MULTIPLIERS.map Prod.fst
    · rw [if_neg (not_not_intro h1), if_neg (not_not_intro h2)]
      constructor
      · constructor
        · rintro ⟨e, he, -⟩
          exact absurd he (by simp)
        · intro hor
          rcases hor with hbad | hbad
          · exact absurd h1 hbad
          · exact absurd h2 hbad
      · intro _ _
        rfl
    · rw [if_neg (not_not_intro h1), if_pos h2]
      constructor
      · constructor
        · intro _
          exact Or.inr h2
        · intro _
          exact ⟨⟨400⟩, rfl, rfl⟩
      · intro _ hmem
        exact absurd hmem h2
  · rw [if_pos h1]
    constructor
    · constructor
      · intro _
        exact Or.inl h1
      · intro _
        exact ⟨⟨400⟩, rfl, rfl⟩
    · intro hmem _
      exact absurd hmem h1

/-- Witness for C8 at a fully valid input. -/
theorem c8_calculate_endpoint_validation_witness :
    pyLower "male" ∈ (["male", "female"] : List String) ∧
    "moderate" ∈ ACTIVITY_MULTIPLIERS.map Prod.fst ∧
    calculate_nutrition_stats 70 175 25 "male" "moderate" "maintain" =
      Except.ok ⟨1673.8, 2594.3, 2594.3, ⟨162.1, 291.9, 86.5⟩⟩ := by
  refine ⟨by decide, by decide, ?_⟩
  rw [(c8_calculate_endpoint_validation 70 175 25 "male" "moderate" "maintain").2
    (by decide) (by decide)]
  rw [bmr_male_70_175_25, tdee_moderate_1673_75, target_calories_maintain,
    pyRound1_1673_75, pyRound1_2594_3125, macros_maintain_2594_3125]

end Ingrelens
